import Mathlib

/-!
Shallow embedding of `src/text-to-sql.py` (the "Responses API" variant of the
AI-Streamlit text-to-SQL app) and proofs about its behaviour.

Python values are modelled as follows: `os.getenv` and the Streamlit secrets
store are functions `String → Option String` (`none` = key absent); Python
string truthiness (`if not x:`) is `pyTruthy`; `st.stop()` and exceptions that
abort a computation are `Except.error`; `print` calls are recorded as an
explicit event trace.  Message dictionaries `{"role": r, "content": c}` are the
structure `Message`; the content blocks sent to the Responses API are `Block`.
-/

/-- A chat message as stored in `st.session_state.messages`:
`{"role": ..., "content": ...}`. -/
structure Message where
  role : String
  content : String
deriving Repr, DecidableEq

/-- One `{"type": ..., "text": ...}` content item of a Responses-API block. -/
structure ContentItem where
  type : String
  text : String
deriving Repr, DecidableEq

/-- One role-tagged content block of the `input` list sent to the API. -/
structure Block where
  role : String
  content : List ContentItem
deriving Repr, DecidableEq

/-- The tool declaration `{"type": "file_search", "vector_store_ids": [...]}`. -/
structure ToolDecl where
  type : String
  vector_store_ids : List String
deriving Repr, DecidableEq

/-- The keyword arguments assembled for `client.responses.create`
(`response_kwargs` in `call_model`).  `tools = none` models the Python value
`None` for the `"tools"` key. -/
structure ResponseKwargs where
  model : String
  input : List Block
  max_output_tokens : Option Nat
  tools : Option (List ToolDecl)
deriving Repr, DecidableEq

/-- Python truthiness of an optional string: `None` and `""` are falsy. -/
def pyTruthy : Option String → Bool
  | none => false
  | some s => s ≠ ""

/-- `resolve_openai_api_key` (text-to-sql.py lines 8-16): env first, then the
secrets store, and `st.error(...)`/`st.stop()` — modelled as `Except.error` —
when both are unresolved. -/
def resolve_openai_api_key (env secrets : String → Option String) :
    Except String String :=
  let api_key := env "OPENAI_API_KEY"
  let api_key :=
    if ¬ pyTruthy api_key ∧ (secrets "OPENAI_API_KEY").isSome then
      secrets "OPENAI_API_KEY"
    else api_key
  if ¬ pyTruthy api_key then
    Except.error "Missing OPENAI_API_KEY. Set it in the environment or Streamlit secrets."
  else
    Except.ok (api_key.getD "")

/-- `resolve_model_name` (lines 19-24): env, then secrets, then the default. -/
def resolve_model_name (env secrets : String → Option String)
    (default : String := "gpt-4o-mini") : String :=
  let model := env "OPENAI_MODEL"
  let model :=
    if ¬ pyTruthy model ∧ (secrets "OPENAI_MODEL").isSome then
      secrets "OPENAI_MODEL"
    else model
  if pyTruthy model then model.getD default else default

/-- `resolve_system_prompt` (lines 27-32): env, then secrets, then the default. -/
def resolve_system_prompt (env secrets : String → Option String)
    (default : String) : String :=
  let prompt := env "DEFAULT_SQL_SYSTEM"
  let prompt :=
    if ¬ pyTruthy prompt ∧ (secrets "DEFAULT_SQL_SYSTEM").isSome then
      secrets "DEFAULT_SQL_SYSTEM"
    else prompt
  if pyTruthy prompt then prompt.getD default else default

/-- The raw `VECTOR_STORE_IDS` value after the env/secrets chain: the env gives
a string, the secrets store may also give a pre-split list (TOML array). -/
inductive RawIds where
  | str (s : String)
  | list (l : List String)
deriving Repr, DecidableEq

/-- Python truthiness of the raw value: `None`, `""` and `[]` are falsy. -/
def rawTruthy : Option RawIds → Bool
  | none => false
  | some (.str s) => s ≠ ""
  | some (.list l) => l ≠ []

/-- Python's whitespace class as used by `str.strip()` (ASCII part). -/
def isPySpace (c : Char) : Bool :=
  c = ' ' ∨ c = '\t' ∨ c = '\n' ∨ c = '\r' ∨ c = Char.ofNat 11 ∨ c = Char.ofNat 12

/-- Python `str.strip()`: drop leading and trailing whitespace. -/
def pyStrip (s : String) : String :=
  String.mk (((s.data.dropWhile isPySpace).reverse.dropWhile isPySpace).reverse)

/-- Worker for `pySplit`: split the remaining characters at each separator,
`acc` holding the (reversed) characters of the current field. -/
def pySplitGo (sep : Char) : List Char → List Char → List String
  | [], acc => [String.mk acc.reverse]
  | c :: cs, acc =>
      if c = sep then String.mk acc.reverse :: pySplitGo sep cs []
      else pySplitGo sep cs (c :: acc)

/-- Python `str.split(sep)` for a one-character separator: split at every
occurrence, keeping empty fields (`"".split(",") = [""]`). -/
def pySplit (s : String) (sep : Char) : List String :=
  pySplitGo sep s.data []

/-- `resolve_vector_store_ids` (lines 35-49), as a function of the resolved raw
value.  The list branch mirrors
`[item.strip() for item in raw if isinstance(item, str) and item.strip()]`
and the string branch mirrors
`[item.strip() for item in str(raw).split(",") if item.strip()]`. -/
def resolve_vector_store_ids (raw : Option RawIds) : List String :=
  if ¬ rawTruthy raw then []
  else
    match raw with
    | none => []
    | some (.list l) =>
        l.filterMap fun item => if pyStrip item ≠ "" then some (pyStrip item) else none
    | some (.str s) =>
        (pySplit s ',').filterMap fun item =>
          if pyStrip item ≠ "" then some (pyStrip item) else none

/-- `format_history` (lines 52-69): the loop appending one role-tagged block
per history message, with type tag `output_text` for assistant messages and
`input_text` otherwise. -/
def format_history (messages : List Message) : List Block :=
  messages.foldl
    (fun formatted message =>
      formatted ++
        [{ role := message.role
           content := [{ type := if message.role = "assistant" then "output_text" else "input_text"
                         text := message.content }] }])
    []

/-- The system block prepended by `call_model` when `system_prompt` is truthy. -/
def systemBlock (sp : String) : Block :=
  { role := "system", content := [{ type := "input_text", text := sp }] }

/-- The block carrying the new user prompt (lines 97-107). -/
def userPromptBlock (prompt : String) : Block :=
  { role := "user", content := [{ type := "input_text", text := prompt }] }

/-- The `conversation` list of `call_model` just before the vector-store branch
(lines 82-107): optional system block, formatted history, then the new prompt. -/
def buildConversation (system_prompt : Option String) (history : List Message)
    (prompt : String) : List Block :=
  let conversation : List Block := []
  let conversation :=
    if pyTruthy system_prompt then conversation ++ [systemBlock (system_prompt.getD "")]
    else conversation
  let conversation := conversation ++ format_history history
  conversation ++ [userPromptBlock prompt]

/-- The synthetic retrieval-hint user message appended when vector stores are
configured (lines 111-115). -/
def fileSearchHint : Block :=
  { role := "user"
    content := [{ type := "input_text"
                  text := "If needed, briefly use file_search to confirm column names/units, then write one SQL." }] }

/-- One observable side effect of `call_model` before the network call:
the `print("Tools: ", tools)` statement at line 118. -/
inductive PrintEvent where
  | toolsLine (tools : List ToolDecl)
deriving Repr, DecidableEq

/-- Lines 109-125 of `call_model`: the vector-store branch, the
`print("Tools: ", tools)` statement and the `response_kwargs` assembly,
returning the kwargs together with the trace of printed lines.  When
`vector_store_ids` is falsy, `tools` was never assigned, so the `print` raises
`UnboundLocalError` — modelled as `Except.error`. -/
def call_modelAssembly (model : String) (system_prompt : Option String)
    (history : List Message) (prompt : String) (max_output_tokens : Option Nat)
    (vector_store_ids : List String) :
    Except String (ResponseKwargs × List PrintEvent) :=
  let conversation := buildConversation system_prompt history prompt
  if vector_store_ids ≠ [] then
    let conversation := conversation ++ [fileSearchHint]
    let tools : List ToolDecl := [{ type := "file_search", vector_store_ids := vector_store_ids }]
    let printed : List PrintEvent := [.toolsLine tools]
    Except.ok
      ({ model := model
         input := conversation
         max_output_tokens := max_output_tokens
         tools := if tools ≠ [] then some tools else none }, printed)
  else
    Except.error "UnboundLocalError: local variable referenced before assignment"

/-- The `response_kwargs` payload of `call_model` alone (the first component of
`call_modelAssembly`), written out independently so the agreement of the two is
a provable statement rather than a definition. -/
def buildResponseKwargs (model : String) (system_prompt : Option String)
    (history : List Message) (prompt : String) (max_output_tokens : Option Nat)
    (vector_store_ids : List String) : Except String ResponseKwargs :=
  if vector_store_ids ≠ [] then
    let tools : List ToolDecl := [{ type := "file_search", vector_store_ids := vector_store_ids }]
    Except.ok
      { model := model
        input := buildConversation system_prompt history prompt ++ [fileSearchHint]
        max_output_tokens := max_output_tokens
        tools := if tools ≠ [] then some tools else none }
  else
    Except.error "UnboundLocalError: local variable referenced before assignment"

/-- The list of print events emitted by `call_model` while assembling the
payload (empty when the assembly itself aborts). -/
def assemblyPrints (model : String) (system_prompt : Option String)
    (history : List Message) (prompt : String) (max_output_tokens : Option Nat)
    (vector_store_ids : List String) : List PrintEvent :=
  match call_modelAssembly model system_prompt history prompt max_output_tokens vector_store_ids with
  | Except.ok (_, printed) => printed
  | Except.error _ => []

/-- `context_window = 6` (line 174). -/
def context_window : Nat := 6

/-- Python slice `l[-n:]`: the trailing `n` elements (all of them when the
list is shorter). -/
def pySliceLast (n : Nat) (l : List Message) : List Message :=
  l.drop (l.length - n)

/-- Line 175: `prior_messages = st.session_state.messages[:-1][-context_window:]`
— the history window handed to `call_model`. -/
def prior_messages (transcript : List Message) : List Message :=
  pySliceLast context_window transcript.dropLast

/-- The error placeholder of line 199: `f"⚠️ Error calling OpenAI: {exc}"`. -/
def errorPlaceholder (exc : String) : String := "⚠️ Error calling OpenAI: " ++ exc

/-- The empty-answer placeholder of line 202. -/
def emptyAnswerPlaceholder : String := "⚠️ No response received, please try again."

/-- Lines 177-202: the answer string as seen after the `try`/`except` block and
the `if not answer:` check.  The remote call either returned text (`Except.ok`)
or raised (`Except.error`). -/
def exchangeAnswer (result : Except String String) : String :=
  let answer :=
    match result with
    | Except.ok a => a
    | Except.error exc => errorPlaceholder exc
  if answer = "" then emptyAnswerPlaceholder else answer

/-- One chat exchange of `main` (lines 168-205): append the user prompt, run
the remote call (whose outcome is `result`), then append the assistant answer
or placeholder. -/
def runExchange (transcript : List Message) (prompt : String)
    (result : Except String String) : List Message :=
  (transcript ++ [{ role := "user", content := prompt }]) ++
    [{ role := "assistant", content := exchangeAnswer result }]

/-- The construction performed after the key resolves (line 141):
`client = OpenAI(api_key=api_key)`. -/
structure OpenAIClient where
  api_key : String
deriving Repr, DecidableEq

/-- The configuration resolved at the top of `main` (lines 136-139). -/
structure SessionConfig where
  apiKey : String
  modelName : String
  systemPrompt : String
  vectorStoreIds : List String
deriving Repr, DecidableEq

/-- Lines 136-141 of `main`: resolve the config, halting (`Except.error`) when
the API key is unresolved; the `OpenAI` client is constructed only afterwards,
so an error here means no client exists and no network call can be issued. -/
def mainStartup (env secrets : String → Option String) (rawIds : Option RawIds) :
    Except String (SessionConfig × OpenAIClient) := do
  let apiKey ← resolve_openai_api_key env secrets
  let modelName := resolve_model_name env secrets
  let systemPrompt := resolve_system_prompt env secrets ""
  let vectorStoreIds := resolve_vector_store_ids rawIds
  let client : OpenAIClient := { api_key := apiKey }
  Except.ok ({ apiKey := apiKey, modelName := modelName, systemPrompt := systemPrompt,
               vectorStoreIds := vectorStoreIds }, client)

/-- The per-session application state: the configuration sources (outside the
session) together with `st.session_state.run_count` and
`st.session_state.messages`. -/
structure AppState where
  env : String → Option String
  secretsStore : String → Option String
  rawVectorIds : Option RawIds
  run_count : Nat
  messages : List Message

/-- The reset-button handler body (line 162): `st.session_state.messages = []`.
The subsequent `st.rerun()` re-executes the script, which is not part of the
handler's own state effect. -/
def resetConversation (s : AppState) : AppState :=
  { s with messages := [] }

/-- The configuration values `main` resolves on a script run, as a function of
the application state (lines 136-139). -/
def resolvedConfigOf (s : AppState) : Except String String × String × String × List String :=
  (resolve_openai_api_key s.env s.secretsStore,
   resolve_model_name s.env s.secretsStore,
   resolve_system_prompt s.env s.secretsStore "",
   resolve_vector_store_ids s.rawVectorIds)

/-! ### Helper lemmas -/

/-- Accumulating one element per step with `foldl` is `map`. -/
lemma foldl_append_singleton_eq_map {α β : Type} (f : α → β) :
    ∀ (l : List α) (acc : List β),
      l.foldl (fun a m => a ++ [f m]) acc = acc ++ l.map f := by
  intro l
  induction l with
  | nil => intro acc; simp
  | cons x xs ih => intro acc; simp [List.foldl_cons, ih]

/-- `format_history` is the pointwise translation of the history. -/
lemma format_history_eq_map (messages : List Message) :
    format_history messages =
      messages.map fun message =>
        { role := message.role
          content := [{ type := if message.role = "assistant" then "output_text" else "input_text"
                        text := message.content }] } := by
  rw [format_history, foldl_append_singleton_eq_map]
  simp

/-- The strip-and-drop comprehension equals mapping the strip and filtering. -/
lemma filterMap_strip_eq (l : List String) :
    (l.filterMap fun item => if pyStrip item ≠ "" then some (pyStrip item) else none) =
      (l.map pyStrip).filter fun x => x ≠ "" := by
  induction l with
  | nil => rfl
  | cons x xs ih =>
      simp only [ne_eq, ite_not, decide_not] at ih ⊢
      by_cases hx : pyStrip x = "" <;> simp [List.filterMap_cons, hx, ih]

/-- The interpolated error placeholder is never the empty string. -/
lemma errorPlaceholder_ne_empty (exc : String) : errorPlaceholder exc ≠ "" := by
  intro h
  rw [errorPlaceholder] at h
  have hlen := congrArg String.length h
  rw [String.length_append] at hlen
  have h25 : ("⚠️ Error calling OpenAI: " : String).length = 25 := rfl
  have h0 : ("" : String).length = 0 := rfl
  rw [h25, h0] at hlen
  omega

/-- The answer recorded for a failed remote call is the error placeholder. -/
lemma exchangeAnswer_error (exc : String) :
    exchangeAnswer (Except.error exc) = errorPlaceholder exc := by
  simp [exchangeAnswer, errorPlaceholder_ne_empty exc]

/-! ### Claim theorems -/

/-- C1: the claim says that with empty `vectorStoreIds` the call still
completes normally with the tools field absent; in the code `tools` is only
assigned inside the `if vector_store_ids:` branch, so the unconditional
`print("Tools: ", tools)` raises `UnboundLocalError` and the call never
completes.  With a non-empty list the behaviour matches the claim: the
retrieval-hint message follows the new prompt and the tool declaration is
scoped to exactly the given store IDs. -/
theorem call_model_tools_unbound :
    buildResponseKwargs "gpt-4o-mini" none [] "list tables" (some 300) [] =
      Except.error "UnboundLocalError: local variable referenced before assignment" ∧
    buildResponseKwargs "gpt-4o-mini" none [] "list tables" (some 300) ["vs1"] =
      Except.ok
        { model := "gpt-4o-mini"
          input := [userPromptBlock "list tables", fileSearchHint]
          max_output_tokens := some 300
          tools := some [{ type := "file_search", vector_store_ids := ["vs1"] }] } := by
  constructor <;> rfl

/-- C2: an exchange appends exactly one user message and then one assistant
message (possibly a placeholder) to the transcript, so a transcript of even
length stays of even length after any completed exchange, successful or not. -/
theorem transcript_even_after_exchange (t : List Message) (p : String)
    (r : Except String String) (h : t.length % 2 = 0) :
    (runExchange t p r).length % 2 = 0 ∧
    runExchange t p r =
      t ++ [{ role := "user", content := p }, { role := "assistant", content := exchangeAnswer r }] := by
  constructor
  · simp [runExchange]
    omega
  · simp [runExchange]

/-- Witness for C2 at a concrete transcript and result. -/
theorem transcript_even_after_exchange_witness :
    (([] : List Message).length % 2 = 0) ∧
    ((runExchange [] "top 5 customers" (Except.ok "SELECT 1")).length % 2 = 0 ∧
     runExchange [] "top 5 customers" (Except.ok "SELECT 1") =
       [] ++ [{ role := "user", content := "top 5 customers" },
              { role := "assistant", content := exchangeAnswer (Except.ok "SELECT 1") }]) :=
  ⟨by decide, transcript_even_after_exchange [] "top 5 customers" (Except.ok "SELECT 1") (by decide)⟩

/-- C3: the window handed to the model excludes the just-appended user message
at the tail, is some trailing segment of the prior transcript (so order is
preserved and nothing is rewritten), holds exactly `min 6 n` of the `n` prior
messages — in particular never more than 6 — and is all of them whenever there
are fewer than 6.  Windowing is a pure function of the transcript, which it
does not modify. -/
theorem prior_messages_spec (t : List Message) (m : Message) :
    (prior_messages (t ++ [m])).length ≤ context_window ∧
    (∃ k, prior_messages (t ++ [m]) = t.drop k) ∧
    (prior_messages (t ++ [m])).length = min context_window t.length ∧
    (t.length < context_window → prior_messages (t ++ [m]) = t) := by
  have hw : prior_messages (t ++ [m]) = t.drop (t.length - context_window) := by
    rw [prior_messages, List.dropLast_concat, pySliceLast]
  refine ⟨?_, ⟨t.length - context_window, hw⟩, ?_, ?_⟩
  · rw [hw, List.length_drop]
    simp only [context_window]
    omega
  · rw [hw, List.length_drop]
    simp only [context_window]
    omega
  · intro hlt
    simp only [context_window] at hlt
    have hz : t.length - context_window = 0 := by simp only [context_window]; omega
    rw [hw, hz, List.drop_zero]

/-- Witness for C3 at a concrete three-message transcript. -/
theorem prior_messages_spec_witness :
    (prior_messages ([{ role := "user", content := "q1" },
                      { role := "assistant", content := "a1" }] ++
                     [{ role := "user", content := "q2" }])).length ≤ context_window ∧
    (∃ k, prior_messages ([{ role := "user", content := "q1" },
                           { role := "assistant", content := "a1" }] ++
                          [{ role := "user", content := "q2" }]) =
        [({ role := "user", content := "q1" } : Message),
         { role := "assistant", content := "a1" }].drop k) ∧
    (prior_messages ([{ role := "user", content := "q1" },
                      { role := "assistant", content := "a1" }] ++
                     [{ role := "user", content := "q2" }])).length =
      min context_window ([({ role := "user", content := "q1" } : Message),
                           { role := "assistant", content := "a1" }]).length ∧
    (([({ role := "user", content := "q1" } : Message),
       { role := "assistant", content := "a1" }]).length < context_window →
      prior_messages ([{ role := "user", content := "q1" },
                       { role := "assistant", content := "a1" }] ++
                      [{ role := "user", content := "q2" }]) =
        [{ role := "user", content := "q1" }, { role := "assistant", content := "a1" }]) :=
  prior_messages_spec
    [{ role := "user", content := "q1" }, { role := "assistant", content := "a1" }]
    { role := "user", content := "q2" }

/-- C4: the conversation assembled for the API is, in fixed order, one
system-role block exactly when the system prompt is truthy (non-empty), then
one role-tagged block per history message whose content-type tag is
`output_text` precisely for assistant messages and `input_text` otherwise,
then the new user prompt as an `input_text` block, which is the last block. -/
theorem buildConversation_spec (s : Option String) (hist : List Message) (p : String) :
    buildConversation s hist p =
      (if pyTruthy s then [systemBlock (s.getD "")] else []) ++
        (hist.map fun m =>
          { role := m.role
            content := [{ type := if m.role = "assistant" then "output_text" else "input_text"
                          text := m.content }] }) ++
        [userPromptBlock p] ∧
    (buildConversation s hist p).getLast? = some (userPromptBlock p) := by
  have hmain : buildConversation s hist p =
      (if pyTruthy s then [systemBlock (s.getD "")] else []) ++
        (hist.map fun m =>
          { role := m.role
            content := [{ type := if m.role = "assistant" then "output_text" else "input_text"
                          text := m.content }] }) ++
        [userPromptBlock p] := by
    rw [buildConversation, format_history_eq_map]
    by_cases hs : pyTruthy s <;> simp [hs]
  refine ⟨hmain, ?_⟩
  rw [hmain]
  exact List.getLast?_concat _

/-- C5: when `OPENAI_API_KEY` is falsy in the environment and in the secrets
store, `main` halts with the configuration error (`st.error` + `st.stop`)
while resolving the key, i.e. before the `OpenAI` client is constructed and
before any request could be issued. -/
theorem mainStartup_missing_key (env secrets : String → Option String)
    (rawIds : Option RawIds)
    (h1 : pyTruthy (env "OPENAI_API_KEY") = false)
    (h2 : pyTruthy (secrets "OPENAI_API_KEY") = false) :
    mainStartup env secrets rawIds =
      Except.error "Missing OPENAI_API_KEY. Set it in the environment or Streamlit secrets." := by
  have hk : resolve_openai_api_key env secrets =
      Except.error "Missing OPENAI_API_KEY. Set it in the environment or Streamlit secrets." := by
    rw [resolve_openai_api_key]
    cases hs : secrets "OPENAI_API_KEY" with
    | none => simp [h1, hs]
    | some v =>
        rw [hs] at h2
        simp [h1, hs, h2]
  rw [mainStartup, hk]
  rfl

/-- Witness for C5: with both sources empty, startup halts with the error. -/
theorem mainStartup_missing_key_witness :
    pyTruthy ((fun _ => none : String → Option String) "OPENAI_API_KEY") = false ∧
    pyTruthy ((fun _ => none : String → Option String) "OPENAI_API_KEY") = false ∧
    mainStartup (fun _ => none) (fun _ => none) none =
      Except.error "Missing OPENAI_API_KEY. Set it in the environment or Streamlit secrets." :=
  ⟨rfl, rfl, mainStartup_missing_key (fun _ => none) (fun _ => none) none rfl rfl⟩

/-- C6: the raw value `"a, b ,,c"` resolves to exactly `["a", "b", "c"]`; an
unresolved value resolves to the empty list; and in general a comma-separated
string resolves to its comma-split entries, each whitespace-stripped, with the
empty entries dropped. -/
theorem resolve_vector_store_ids_spec :
    resolve_vector_store_ids (some (.str "a, b ,,c")) = ["a", "b", "c"] ∧
    resolve_vector_store_ids none = [] ∧
    ∀ s : String,
      resolve_vector_store_ids (some (.str s)) =
        ((pySplit s ',').map pyStrip).filter fun x => x ≠ "" := by
  refine ⟨by decide, rfl, ?_⟩
  intro s
  by_cases hs : s = ""
  · subst hs; decide
  · have ht : ¬ (¬ rawTruthy (some (.str s)) = true) := by simp [rawTruthy, hs]
    rw [resolve_vector_store_ids, if_neg ht]
    exact filterMap_strip_eq (pySplit s ',')

/-- C7: when the remote call raises, the exception is absorbed by the handler
(`runExchange` is total on error outcomes), the transcript grows by the user
message and one assistant entry, and its final entry is the interpolated
error placeholder. -/
theorem exchange_error_recovered (t : List Message) (p exc : String) :
    runExchange t p (Except.error exc) =
      t ++ [{ role := "user", content := p },
            { role := "assistant", content := errorPlaceholder exc }] ∧
    (runExchange t p (Except.error exc)).getLast? =
      some { role := "assistant", content := errorPlaceholder exc } := by
  have hmain : runExchange t p (Except.error exc) =
      t ++ [{ role := "user", content := p },
            { role := "assistant", content := errorPlaceholder exc }] := by
    rw [runExchange, exchangeAnswer_error]
    simp
  refine ⟨hmain, ?_⟩
  rw [runExchange, exchangeAnswer_error]
  exact List.getLast?_concat _

/-- C8: a successful call that returns empty text is not an error: the
assistant entry appended is exactly the distinct empty-answer placeholder and
the prior transcript is preserved (no reset). -/
theorem exchange_empty_answer (t : List Message) (p : String) :
    runExchange t p (Except.ok "") =
      t ++ [{ role := "user", content := p },
            { role := "assistant", content := emptyAnswerPlaceholder }] ∧
    (runExchange t p (Except.ok "")).getLast? =
      some { role := "assistant", content := emptyAnswerPlaceholder } := by
  have ha : exchangeAnswer (Except.ok "") = emptyAnswerPlaceholder := rfl
  have hmain : runExchange t p (Except.ok "") =
      t ++ [{ role := "user", content := p },
            { role := "assistant", content := emptyAnswerPlaceholder }] := by
    rw [runExchange, ha]
    simp
  refine ⟨hmain, ?_⟩
  rw [runExchange, ha]
  exact List.getLast?_concat _

/-- C9 counterexample: payload assembly is not free of I/O — on a concrete
call with a configured vector store, `call_model` prints a debug line
(`print("Tools: ", tools)`) to stdout before issuing the request. -/
theorem assembly_prints_nonempty :
    assemblyPrints "gpt-4o-mini" none [] "list tables" (some 300) ["vs1"] ≠ [] := by
  decide

/-- C9 amended: the assembled payload is a deterministic, pure function of the
inputs — the debug printing does not influence it: projecting the traced
assembly onto its payload component gives exactly the pure payload function of
the same inputs. -/
theorem payload_deterministic (model : String) (sp : Option String)
    (hist : List Message) (p : String) (mot : Option Nat) (ids : List String) :
    Except.map Prod.fst (call_modelAssembly model sp hist p mot ids) =
      buildResponseKwargs model sp hist p mot ids := by
  by_cases hids : ids = [] <;>
    simp [call_modelAssembly, buildResponseKwargs, hids, Except.map]

/-- C10: the reset handler clears the transcript and nothing else — the run
counter and the configuration sources are untouched, so the configuration
resolved on the next run is identical to the pre-reset one. -/
theorem resetConversation_frame (s : AppState) :
    (resetConversation s).messages = [] ∧
    (resetConversation s).run_count = s.run_count ∧
    resolvedConfigOf (resetConversation s) = resolvedConfigOf s :=
  ⟨rfl, rfl, rfl⟩
